import Mathlib

/-!
Verification of the Drishyam3D GLTF ingestion pipeline.

The definitions below are shallow embeddings of the JavaScript source
(`src/scripts/engine/gltf-parser.js` / the identical copy in the unnamed
source part, `src/scripts/engine/geometry.js`, and the folder-import
selection logic).  Modelling conventions:

* JS strings (paths, uris) are `List Char`; string literals are written
  via `String.toList`.
* Raw binary buffers (`ArrayBuffer`) are `List Nat`, one byte per entry.
* Typed-array construction follows the JS semantics: a view records its
  element kind, byte offset, element count and the little-endian component
  words it aliases; a misaligned offset or an out-of-range view raises the
  JS `RangeError`, modelled as an error value.
* Thrown JS `Error`s are modelled by the inductive `GltfError`; throwing
  is modelled with `Except`.
* JS numbers that take part in exact arithmetic (vertex coordinates equal
  to small dyadic rationals, midpoints, extents) are modelled as `ℚ`; every
  operation the modelled code performs on the concrete inputs considered
  here is exact in IEEE double precision, so the ℚ model agrees with JS.
-/

/-- Error kinds thrown by the loader.  Each constructor corresponds to one
`throw new Error(...)` site in the source; constructors carry exactly the
data that the source interpolates into the message. -/
inductive GltfError where
  /-- "GLTF file does not contain any meshes." -/
  | NoMeshes
  /-- "Mesh is missing required attributes (POSITION, NORMAL, or indices)."
  The source message is one fixed string: it does not say which of the
  three are absent, hence the constructor carries no data. -/
  | MissingRequiredAttributes
  /-- "Embedded GLTF buffers are not yet supported by this simple loader." -/
  | EmbeddedBufferUnsupported
  /-- "Embedded GLTF images are not yet supported by this simple loader." -/
  | EmbeddedImageUnsupported
  /-- "Failed to fetch binary buffer from ..." (network fetch path). -/
  | BufferFetchFailed (path : List Char)
  /-- "Cannot resolve buffer URI: ... / Cannot resolve image URI: ...;
  available files (sample): ..." — carries the attempted uri and the sample
  of known paths interpolated into the message. -/
  | ResourceNotFound (attemptedPath : List Char) (knownPathsSample : List (List Char))
  /-- "Unsupported accessor type: ..." -/
  | UnsupportedAccessorType
  /-- "Unsupported accessor component type: ..." /
  "Unsupported GLTF component type: ..." -/
  | UnsupportedComponentType
  /-- JS RangeError raised by a TypedArray constructor on a misaligned or
  out-of-range view. -/
  | RangeError
  /-- "Model uses 32-bit indices not supported by this device." -/
  | IndexRangeExceeds16Bit
  /-- "No .gltf file found in the selected folder." -/
  | NoGltfInFolder
  /-- JS TypeError from reading a property of `undefined` (e.g. an empty
  `primitives` or `buffers` array indexed at 0). -/
  | JsTypeError
  deriving DecidableEq

/-- GLTF bufferView descriptor; the source reads only its `byteOffset`
(`bufferView.byteOffset || 0`, so the field may be absent). -/
structure BufferView where
  byteOffset : Option Nat
  deriving DecidableEq

/-- GLTF accessor descriptor, with the fields the source reads. -/
structure Accessor where
  componentType : Nat
  type : String
  count : Nat
  byteOffset : Option Nat
  bufferView : Nat
  deriving DecidableEq

/-- The element kind of a decoded typed view (the TypedArray constructor
chosen by `getBufferViewData`). -/
inductive ViewKind where
  | int8
  | uint8
  | int16
  | uint16
  | uint32
  | float32
  deriving DecidableEq

/-- A decoded typed view: element kind, absolute byte offset into the raw
buffer, element count, and the component words it aliases (little-endian
raw bit patterns, one `Nat` per element). -/
structure TypedView where
  kind : ViewKind
  byteOffset : Nat
  length : Nat
  values : List Nat
  deriving DecidableEq

/-- Little-endian word of `sz` bytes at element index `i` of a view that
starts at byte `off` in `bufferData`. -/
def viewWord (bufferData : List Nat) (off sz i : Nat) : Nat :=
  (List.range sz).foldr (fun b acc => acc * 256 + bufferData.getD (off + i * sz + b) 0) 0

/-- JS TypedArray constructor `new T(buffer, byteOffset, elementCount)`:
raises `RangeError` when `byteOffset` is not a multiple of the element size
or the view would run past the end of the buffer; otherwise yields the view
aliasing the buffer. -/
def mkTypedView (kind : ViewKind) (sz : Nat) (bufferData : List Nat)
    (byteOffset elementCount : Nat) : Except GltfError TypedView :=
  if byteOffset % sz ≠ 0 then
    .error .RangeError
  else if bufferData.length < byteOffset + elementCount * sz then
    .error .RangeError
  else
    .ok ⟨kind, byteOffset, elementCount, (List.range elementCount).map (viewWord bufferData byteOffset sz)⟩

/-- `getBufferViewData(bufferData, bufferView, accessor)` from
`gltf-parser.js`: absolute byte offset is
`(bufferView.byteOffset || 0) + (accessor.byteOffset || 0)`; element count
comes from the accessor-type switch (VEC3 → ×3, VEC2 → ×2, SCALAR → ×1,
otherwise throw); the component-type switch picks the TypedArray
constructor (5120 int8, 5121 uint8, 5122 int16, 5123 uint16, 5125 uint32,
5126 float32, otherwise throw). -/
def getBufferViewData (bufferData : List Nat) (bufferView : BufferView)
    (accessor : Accessor) : Except GltfError TypedView := do
  let byteOffset := bufferView.byteOffset.getD 0 + accessor.byteOffset.getD 0
  let elementCount : Nat ←
    match accessor.type with
    | "VEC3" => Except.ok (accessor.count * 3)
    | "VEC2" => Except.ok (accessor.count * 2)
    | "SCALAR" => Except.ok accessor.count
    | _ => Except.error GltfError.UnsupportedAccessorType
  match accessor.componentType with
  | 5120 => mkTypedView .int8 1 bufferData byteOffset elementCount
  | 5121 => mkTypedView .uint8 1 bufferData byteOffset elementCount
  | 5122 => mkTypedView .int16 2 bufferData byteOffset elementCount
  | 5123 => mkTypedView .uint16 2 bufferData byteOffset elementCount
  | 5125 => mkTypedView .uint32 4 bufferData byteOffset elementCount
  | 5126 => mkTypedView .float32 4 bufferData byteOffset elementCount
  | _ => Except.error GltfError.UnsupportedComponentType

/-- The spec's `componentsPerElement`: SCALAR → 1, VEC2 → 2, VEC3 → 3
(0 for anything else; only the three listed values are ever used). -/
def componentsPerElement (t : String) : Nat :=
  if t = "SCALAR" then 1 else if t = "VEC2" then 2 else if t = "VEC3" then 3 else 0

/-- Byte size of one component for each supported component-type code. -/
def componentByteSize (c : Nat) : Nat :=
  if c = 5120 then 1 else if c = 5121 then 1 else if c = 5122 then 2
  else if c = 5123 then 2 else if c = 5125 then 4 else if c = 5126 then 4 else 0

/-- The decoder's supported component-type codes. -/
def supportedComponentTypes : List Nat := [5120, 5121, 5122, 5123, 5125, 5126]

/-- The supported component-type → view-kind table of the decoder. -/
def componentKindTable (c : Nat) : Option ViewKind :=
  if c = 5120 then some .int8 else if c = 5121 then some .uint8
  else if c = 5122 then some .int16 else if c = 5123 then some .uint16
  else if c = 5125 then some .uint32 else if c = 5126 then some .float32 else none

/-- A TypedArray construction succeeds when the offset is aligned and the
view fits in the buffer. -/
theorem mkTypedView_ok (kind : ViewKind) (sz : Nat) (bufferData : List Nat)
    (byteOffset elementCount : Nat)
    (h1 : byteOffset % sz = 0)
    (h2 : byteOffset + elementCount * sz ≤ bufferData.length) :
    mkTypedView kind sz bufferData byteOffset elementCount =
      .ok ⟨kind, byteOffset, elementCount,
            (List.range elementCount).map (viewWord bufferData byteOffset sz)⟩ := by
  unfold mkTypedView
  rw [if_neg (by omega), if_neg (by omega)]

/-- C1: for every accessor whose (componentType, type) pair is in the
supported table, `getBufferViewData` returns a typed view whose length is
`accessor.count × componentsPerElement(type)`, starting at absolute byte
offset `bufferView.byteOffset + accessor.byteOffset` (each offset
defaulting to 0 when absent).  The two side hypotheses are the JS
TypedArray constructor preconditions (aligned offset, view inside the
buffer), without which the constructor itself raises `RangeError`. -/
theorem decode_length_and_offset (bufferData : List Nat) (bv : BufferView) (acc : Accessor)
    (htype : acc.type = "SCALAR" ∨ acc.type = "VEC2" ∨ acc.type = "VEC3")
    (hct : acc.componentType ∈ supportedComponentTypes)
    (halign : (bv.byteOffset.getD 0 + acc.byteOffset.getD 0) % componentByteSize acc.componentType = 0)
    (hfit : bv.byteOffset.getD 0 + acc.byteOffset.getD 0 +
        acc.count * componentsPerElement acc.type * componentByteSize acc.componentType ≤
        bufferData.length) :
    ∃ v, getBufferViewData bufferData bv acc = .ok v ∧
      v.length = acc.count * componentsPerElement acc.type ∧
      v.byteOffset = bv.byteOffset.getD 0 + acc.byteOffset.getD 0 := by
  simp only [supportedComponentTypes, List.mem_cons, List.not_mem_nil, or_false] at hct
  rcases htype with ht | ht | ht <;> rcases hct with hc | hc | hc | hc | hc | hc
  all_goals
    rw [hc] at halign hfit
    rw [ht] at hfit
    simp [componentByteSize, componentsPerElement] at halign hfit
    simp only [getBufferViewData, ht, hc, bind, Except.bind]
    rw [mkTypedView_ok _ _ _ _ _ (by omega) (by omega)]
    exact ⟨_, rfl, by simp [ht, componentsPerElement], rfl⟩

/-- Witness for `decode_length_and_offset`: a concrete uint16 VEC2 accessor
over a 12-byte buffer. -/
theorem decode_length_and_offset_witness :
    ((Accessor.mk 5123 "VEC2" 2 (some 0) 0).type = "SCALAR" ∨
      (Accessor.mk 5123 "VEC2" 2 (some 0) 0).type = "VEC2" ∨
      (Accessor.mk 5123 "VEC2" 2 (some 0) 0).type = "VEC3") ∧
    (∃ v, getBufferViewData (List.range 12) (BufferView.mk (some 4))
        (Accessor.mk 5123 "VEC2" 2 (some 0) 0) = .ok v ∧
      v.length = 2 * componentsPerElement "VEC2" ∧
      v.byteOffset = 4) :=
  ⟨Or.inr (Or.inl rfl),
    decode_length_and_offset (List.range 12) (BufferView.mk (some 4))
      (Accessor.mk 5123 "VEC2" 2 (some 0) 0)
      (Or.inr (Or.inl rfl)) (by decide) (by decide) (by decide)⟩

/-- C7: for every accessor type of the data model, component type 5124
(signed 32-bit int) makes `getBufferViewData` fail with
`UnsupportedComponentType`; moreover every component type outside the
supported table fails the same way, and a successful decode always uses
exactly the table's view kind (5120→int8, 5121→uint8, 5122→int16,
5123→uint16, 5125→uint32, 5126→float32). -/
theorem decode_component_type_table (bufferData : List Nat) (bv : BufferView) (acc : Accessor)
    (htype : acc.type = "SCALAR" ∨ acc.type = "VEC2" ∨ acc.type = "VEC3") :
    (acc.componentType = 5124 →
      getBufferViewData bufferData bv acc = .error .UnsupportedComponentType) ∧
    (acc.componentType ∉ supportedComponentTypes →
      getBufferViewData bufferData bv acc = .error .UnsupportedComponentType) ∧
    (∀ v, getBufferViewData bufferData bv acc = .ok v →
      componentKindTable acc.componentType = some v.kind) := by
  rcases htype with ht | ht | ht <;>
  · refine ⟨?_, ?_, ?_⟩
    · intro hc
      simp only [getBufferViewData, ht, hc, bind, Except.bind]
    · intro hn
      simp only [getBufferViewData, ht, bind, Except.bind]
      split <;> simp_all [supportedComponentTypes]
    · intro v hv
      simp only [getBufferViewData, ht, bind, Except.bind] at hv
      split at hv <;>
        first
          | (cases hv)
          | (rw [mkTypedView] at hv
             split at hv
             · cases hv
             · split at hv
               · cases hv
               · cases hv
                 simp_all [componentKindTable])

/-- Witness for `decode_component_type_table`: a concrete VEC3 accessor with
component type 5124 is rejected with `UnsupportedComponentType`. -/
theorem decode_component_type_table_witness :
    ((Accessor.mk 5124 "VEC3" 1 none 0).type = "SCALAR" ∨
      (Accessor.mk 5124 "VEC3" 1 none 0).type = "VEC2" ∨
      (Accessor.mk 5124 "VEC3" 1 none 0).type = "VEC3") ∧
    getBufferViewData [] (BufferView.mk none) (Accessor.mk 5124 "VEC3" 1 none 0) =
      .error .UnsupportedComponentType :=
  ⟨Or.inr (Or.inr rfl),
    (decode_component_type_table [] (BufferView.mk none) (Accessor.mk 5124 "VEC3" 1 none 0)
      (Or.inr (Or.inr rfl))).1 rfl⟩

/-- `getWebGLComponentType(componentType)` from `gltf-parser.js`: maps GLTF
component-type codes to the numerically equal WebGL constants
(`WebGLRenderingContext.BYTE = 0x1400 = 5120`, ...,
`UNSIGNED_SHORT = 0x1403 = 5123`, `UNSIGNED_INT = 0x1405 = 5125`,
`FLOAT = 0x1406 = 5126`); anything else throws. -/
def getWebGLComponentType (componentType : Nat) : Except GltfError Nat :=
  if componentType = 5120 then .ok 5120
  else if componentType = 5121 then .ok 5121
  else if componentType = 5122 then .ok 5122
  else if componentType = 5123 then .ok 5123
  else if componentType = 5125 then .ok 5125
  else if componentType = 5126 then .ok 5126
  else .error .UnsupportedComponentType

/-- The `maxIndex` scan of `parseGltf` (a loop starting from 0 that keeps
the largest value seen). -/
def maxIndexScan (indices : List Nat) : Nat :=
  indices.foldl (fun maxIndex v => if v > maxIndex then v else maxIndex) 0

/-- The index-width normalisation step of `parseGltf`: for 32-bit unsigned
indices (code 5125) on a context without the `OES_element_index_uint`
extension (the `hasExtendedIndexSupport` flag), scan for the maximum index;
if it fits in 16 bits rebuild the array as `Uint16Array` (per-element
conversion is reduction mod 2^16) and use `UNSIGNED_SHORT` (5123) as the
index type, otherwise throw.  All other component types keep the index
array and the WebGL type returned by `getWebGLComponentType`. -/
def normalizeIndices (hasExtendedIndexSupport : Bool) (componentType : Nat)
    (indices : List Nat) : Except GltfError (List Nat × Nat) := do
  let indexType ← getWebGLComponentType componentType
  if componentType = 5125 then
    if hasExtendedIndexSupport then
      Except.ok (indices, indexType)
    else
      let maxIndex := maxIndexScan indices
      if maxIndex ≤ 65535 then
        Except.ok (indices.map (fun v => v % 65536), 5123)
      else
        Except.error GltfError.IndexRangeExceeds16Bit
  else
    Except.ok (indices, indexType)

theorem maxScan_le_of_all (l : List Nat) (a b : Nat) (ha : a ≤ b)
    (h : ∀ v ∈ l, v ≤ b) :
    l.foldl (fun maxIndex v => if v > maxIndex then v else maxIndex) a ≤ b := by
  induction l generalizing a with
  | nil => simpa using ha
  | cons x xs ih =>
    simp only [List.foldl_cons]
    apply ih
    · split
      · exact h x (List.mem_cons_self x xs)
      · exact ha
    · exact fun v hv => h v (List.mem_cons_of_mem x hv)

theorem maxScan_start_le (l : List Nat) (a : Nat) :
    a ≤ l.foldl (fun maxIndex v => if v > maxIndex then v else maxIndex) a := by
  induction l generalizing a with
  | nil => simp
  | cons x xs ih =>
    simp only [List.foldl_cons]
    refine le_trans ?_ (ih _)
    split <;> omega

theorem le_maxScan_of_mem (l : List Nat) (v : Nat) :
    ∀ a, v ∈ l → v ≤ l.foldl (fun maxIndex v => if v > maxIndex then v else maxIndex) a := by
  induction l with
  | nil => intro a hv; cases hv
  | cons x xs ih =>
    intro a hv
    simp only [List.foldl_cons]
    rcases List.mem_cons.mp hv with rfl | hv2
    · refine le_trans ?_ (maxScan_start_le xs _)
      split <;> omega
    · exact ih _ hv2

/-- C2: on a backend without extended-index support, uint32 (5125) indices
whose values all fit in 16 bits are narrowed: the result is the same list
of values with index type `UNSIGNED_SHORT` (5123, the 16-bit width); if any
value exceeds 65535, the load fails with `IndexRangeExceeds16Bit`. -/
theorem normalizeIndices_uint32_narrowing (indices : List Nat) :
    ((∀ v ∈ indices, v ≤ 65535) →
      normalizeIndices false 5125 indices = .ok (indices, 5123)) ∧
    ((∃ v ∈ indices, 65535 < v) →
      normalizeIndices false 5125 indices = .error .IndexRangeExceeds16Bit) := by
  constructor
  · intro hall
    have hmax : maxIndexScan indices ≤ 65535 :=
      maxScan_le_of_all indices 0 65535 (by omega) hall
    have hmap : indices.map (fun v => v % 65536) = indices := by
      have : indices.map (fun v => v % 65536) = indices.map id :=
        List.map_congr_left fun v hv => Nat.mod_eq_of_lt (by have := hall v hv; omega)
      simpa using this
    simp [normalizeIndices, getWebGLComponentType, bind, Except.bind, hmax, hmap]
  · intro ⟨v, hv, hbig⟩
    have hmax : ¬ maxIndexScan indices ≤ 65535 := by
      have h2 := le_maxScan_of_mem indices v 0 hv
      simp only [maxIndexScan]
      omega
    simp [normalizeIndices, getWebGLComponentType, bind, Except.bind, hmax]

/-- Witness for `normalizeIndices_uint32_narrowing` at concrete index
lists. -/
theorem normalizeIndices_uint32_narrowing_witness :
    normalizeIndices false 5125 [0, 70, 65535] = .ok ([0, 70, 65535], 5123) ∧
    normalizeIndices false 5125 [70000] = .error .IndexRangeExceeds16Bit :=
  ⟨(normalizeIndices_uint32_narrowing [0, 70, 65535]).1 (by decide),
   (normalizeIndices_uint32_narrowing [70000]).2 (by decide)⟩

/-- Per-axis min/max accumulator of the bounds scan (the six local
variables `minX..maxZ` of `parseGltf`). -/
structure BoundsAcc where
  minX : ℚ
  minY : ℚ
  minZ : ℚ
  maxX : ℚ
  maxY : ℚ
  maxZ : ℚ
  deriving DecidableEq

/-- The `bounds` record of the Drawable: `{ center, radius }`. -/
structure BoundsQ where
  center : ℚ × ℚ × ℚ
  radius : ℚ
  deriving DecidableEq

/-- One iteration of the bounds loop body: the six `if (x < minX) minX = x`
style updates.  The JS loop seeds the extrema with `±Infinity`, against
which every value compares true; that seeding is modelled by `Option`
(`none` = nothing scanned yet, so the first triple becomes both min and
max). -/
def updateBounds (x y z : ℚ) : Option BoundsAcc → BoundsAcc
  | none => ⟨x, y, z, x, y, z⟩
  | some a => ⟨min x a.minX, min y a.minY, min z a.minZ,
               max x a.maxX, max y a.maxY, max z a.maxZ⟩

/-- The bounds-scan loop of `parseGltf` (`for i += 3` over the decoded
position view).  The decoded POSITION view always has length `3·count`
(it is a VEC3 accessor), so the catch-all base case is only ever reached
with an empty remainder. -/
def scanBounds : List ℚ → Option BoundsAcc → Option BoundsAcc
  | x :: y :: z :: rest, acc => scanBounds rest (some (updateBounds x y z acc))
  | _, acc => acc

/-- The bounds computation of `parseGltf`:
`center = [(minX+maxX)/2, (minY+maxY)/2, (minZ+maxZ)/2]` and
`radius = Math.max(dx, dy, dz) / 2 || 1`.  The JS `|| 1` replaces a falsy
value — for a scan over at least one triple the half-extent is a
non-negative number, and it is falsy exactly when it is `0`.  An empty
input (for which JS would keep the infinite seeds) yields `none`. -/
def computeBounds (positions : List ℚ) : Option BoundsQ :=
  match scanBounds positions none with
  | none => none
  | some a =>
    let center := ((a.minX + a.maxX) / 2, (a.minY + a.maxY) / 2, (a.minZ + a.maxZ) / 2)
    let dx := a.maxX - a.minX
    let dy := a.maxY - a.minY
    let dz := a.maxZ - a.minZ
    let r := max (max dx dy) dz / 2
    some ⟨center, if r = 0 then 1 else r⟩

/-- Flatten a list of (x, y, z) triples into the flat coordinate layout of
the decoded position view. -/
def flat3 (ts : List (ℚ × ℚ × ℚ)) : List ℚ :=
  ts.flatMap (fun t => [t.1, t.2.1, t.2.2])

/-- Accumulator seeded by the first scanned triple. -/
def seedAcc (t : ℚ × ℚ × ℚ) : BoundsAcc := ⟨t.1, t.2.1, t.2.2, t.1, t.2.1, t.2.2⟩

/-- Non-optional form of the loop body, used once a seed exists. -/
def stepAcc (a : BoundsAcc) (t : ℚ × ℚ × ℚ) : BoundsAcc :=
  ⟨min t.1 a.minX, min t.2.1 a.minY, min t.2.2 a.minZ,
   max t.1 a.maxX, max t.2.1 a.maxY, max t.2.2 a.maxZ⟩

def fstOf (p : ℚ × ℚ × ℚ) : ℚ := p.1

def sndOf (p : ℚ × ℚ × ℚ) : ℚ := p.2.1

def thdOf (p : ℚ × ℚ × ℚ) : ℚ := p.2.2

/-- Per-axis minimum of a nonempty triple list, as a standard fold. -/
def axisMin (f : (ℚ × ℚ × ℚ) → ℚ) (t : ℚ × ℚ × ℚ) (ts : List (ℚ × ℚ × ℚ)) : ℚ :=
  (ts.map f).foldl min (f t)

/-- Per-axis maximum of a nonempty triple list, as a standard fold. -/
def axisMax (f : (ℚ × ℚ × ℚ) → ℚ) (t : ℚ × ℚ × ℚ) (ts : List (ℚ × ℚ × ℚ)) : ℚ :=
  (ts.map f).foldl max (f t)

theorem scanBounds_flat3_some (ts : List (ℚ × ℚ × ℚ)) :
    ∀ a : BoundsAcc, scanBounds (flat3 ts) (some a) = some (ts.foldl stepAcc a) := by
  induction ts with
  | nil => intro a; rfl
  | cons t ts ih =>
    intro a
    show scanBounds (t.1 :: t.2.1 :: t.2.2 :: flat3 ts) (some a) = _
    rw [scanBounds]
    have hstep : updateBounds t.1 t.2.1 t.2.2 (some a) = stepAcc a t := rfl
    rw [hstep, ih]
    rfl

theorem scanBounds_flat3_cons (t : ℚ × ℚ × ℚ) (ts : List (ℚ × ℚ × ℚ)) :
    scanBounds (flat3 (t :: ts)) none = some (ts.foldl stepAcc (seedAcc t)) := by
  show scanBounds (t.1 :: t.2.1 :: t.2.2 :: flat3 ts) none = _
  rw [scanBounds]
  have hseed : updateBounds t.1 t.2.1 t.2.2 none = seedAcc t := rfl
  rw [hseed, scanBounds_flat3_some]

theorem foldl_stepAcc_fields (ts : List (ℚ × ℚ × ℚ)) :
    ∀ a : BoundsAcc,
      (ts.foldl stepAcc a).minX = (ts.map fstOf).foldl min a.minX ∧
      (ts.foldl stepAcc a).minY = (ts.map sndOf).foldl min a.minY ∧
      (ts.foldl stepAcc a).minZ = (ts.map thdOf).foldl min a.minZ ∧
      (ts.foldl stepAcc a).maxX = (ts.map fstOf).foldl max a.maxX ∧
      (ts.foldl stepAcc a).maxY = (ts.map sndOf).foldl max a.maxY ∧
      (ts.foldl stepAcc a).maxZ = (ts.map thdOf).foldl max a.maxZ := by
  induction ts with
  | nil => intro a; exact ⟨rfl, rfl, rfl, rfl, rfl, rfl⟩
  | cons t ts ih =>
    intro a
    obtain ⟨h1, h2, h3, h4, h5, h6⟩ := ih (stepAcc a t)
    refine ⟨?_, ?_, ?_, ?_, ?_, ?_⟩
    · simp only [List.foldl_cons, List.map_cons, h1]
      congr 1
      simp [stepAcc, fstOf, min_comm]
    · simp only [List.foldl_cons, List.map_cons, h2]
      congr 1
      simp [stepAcc, sndOf, min_comm]
    · simp only [List.foldl_cons, List.map_cons, h3]
      congr 1
      simp [stepAcc, thdOf, min_comm]
    · simp only [List.foldl_cons, List.map_cons, h4]
      congr 1
      simp [stepAcc, fstOf, max_comm]
    · simp only [List.foldl_cons, List.map_cons, h5]
      congr 1
      simp [stepAcc, sndOf, max_comm]
    · simp only [List.foldl_cons, List.map_cons, h6]
      congr 1
      simp [stepAcc, thdOf, max_comm]

/-- C3 counterexample: the claim says the radius is "floored to a minimum
of 1 unit", but the source computes `Math.max(dx,dy,dz)/2 || 1`, where
`|| 1` fires only on a half-extent of exactly 0.  For positions (0,0,0)
and (1/2,0,0) the largest extent is 1/2 and the computed radius is
1/4 < 1, not 1. -/
theorem computeBounds_radius_not_floored :
    computeBounds [0, 0, 0, 1/2, 0, 0] = some ⟨(1/4, 0, 0), 1/4⟩ ∧
      ¬ (1 : ℚ) ≤ 1/4 := by
  constructor
  · simp [computeBounds, scanBounds, updateBounds, min_def, max_def]
    norm_num
  · norm_num

/-- The ±1 cube corners of the claim's bounds test. -/
def cubeCornerTriples : List (ℚ × ℚ × ℚ) :=
  [(-1, -1, -1), (-1, -1, 1), (-1, 1, -1), (-1, 1, 1),
   (1, -1, -1), (1, -1, 1), (1, 1, -1), (1, 1, 1)]

/-- C3 (amended): for every nonempty position list the single bounds scan
yields `center` equal to the axis-wise midpoint of per-axis minima and maxima
and `radius` equal to half the largest axis extent, except that a radius of
exactly 0 (zero-volume geometry) is replaced by 1 — the radius is NOT
floored to 1 in general; and for the ±1 cube corners the result is center
(0,0,0), radius 1. -/
theorem computeBounds_center_and_radius :
    (∀ (t : ℚ × ℚ × ℚ) (ts : List (ℚ × ℚ × ℚ)),
      ∃ b, computeBounds (flat3 (t :: ts)) = some b ∧
        b.center = ((axisMin fstOf t ts + axisMax fstOf t ts) / 2,
          (axisMin sndOf t ts + axisMax sndOf t ts) / 2,
          (axisMin thdOf t ts + axisMax thdOf t ts) / 2) ∧
        b.radius =
          (if max (max (axisMax fstOf t ts - axisMin fstOf t ts)
                (axisMax sndOf t ts - axisMin sndOf t ts))
              (axisMax thdOf t ts - axisMin thdOf t ts) / 2 = 0 then 1
           else max (max (axisMax fstOf t ts - axisMin fstOf t ts)
                (axisMax sndOf t ts - axisMin sndOf t ts))
              (axisMax thdOf t ts - axisMin thdOf t ts) / 2)) ∧
    computeBounds (flat3 cubeCornerTriples) = some ⟨(0, 0, 0), 1⟩ := by
  constructor
  · intro t ts
    obtain ⟨h1, h2, h3, h4, h5, h6⟩ := foldl_stepAcc_fields ts (seedAcc t)
    have hscan := scanBounds_flat3_cons t ts
    set acc := ts.foldl stepAcc (seedAcc t) with hacc
    have hcb : computeBounds (flat3 (t :: ts)) =
        some ⟨((acc.minX + acc.maxX) / 2, (acc.minY + acc.maxY) / 2, (acc.minZ + acc.maxZ) / 2),
          if max (max (acc.maxX - acc.minX) (acc.maxY - acc.minY)) (acc.maxZ - acc.minZ) / 2 = 0
          then 1
          else max (max (acc.maxX - acc.minX) (acc.maxY - acc.minY)) (acc.maxZ - acc.minZ) / 2⟩ := by
      unfold computeBounds
      rw [hscan]
    refine ⟨_, hcb, ?_, ?_⟩
    · simp only [h1, h2, h3, h4, h5, h6, axisMin, axisMax]
      simp [seedAcc, fstOf, sndOf, thdOf]
    · simp only [h1, h2, h3, h4, h5, h6, axisMin, axisMax]
      simp [seedAcc, fstOf, sndOf, thdOf]
  · simp [cubeCornerTriples, flat3, computeBounds, scanBounds, updateBounds, min_def, max_def]

/-- `primitive.attributes` of the manifest; each entry is an accessor
index, absent when the attribute is not declared. -/
structure PrimitiveAttributes where
  POSITION : Option Nat
  NORMAL : Option Nat
  TEXCOORD_0 : Option Nat
  deriving DecidableEq

/-- A GLTF mesh primitive, with the fields the source reads. -/
structure Primitive where
  attributes : PrimitiveAttributes
  indices : Option Nat
  material : Option Nat
  deriving DecidableEq

/-- A GLTF mesh: a list of primitives (the source only reads index 0). -/
structure Mesh where
  primitives : List Primitive
  deriving DecidableEq

/-- An entry of `gltfJson.buffers`; the source reads only its `uri`. -/
structure GltfBuffer where
  uri : Option (List Char)
  deriving DecidableEq

/-- The parsed GLTF manifest (the top-level keys the resolution phase
reads). -/
structure Gltf where
  meshes : List Mesh
  accessors : List Accessor
  bufferViews : List BufferView
  buffers : List GltfBuffer
  deriving DecidableEq

/-- Externally visible resource accesses performed by the loader: a read
of a file from the virtual file set (`localBinFile.arrayBuffer()`), or a
network fetch (`fetch(...)`). -/
inductive ResolveAction where
  | readLocalFile (path : List Char)
  | fetchUrl (path : List Char)
  deriving DecidableEq

def actionPath : ResolveAction → List Char
  | .readLocalFile p => p
  | .fetchUrl p => p

/-- Index of the last '/' in a path (`mainFilePath.lastIndexOf('/')`,
`none` standing for −1). -/
def lastSlashIndex (p : List Char) : Option Nat :=
  (p.reverse.findIdx? (fun c => c == '/')).map (fun i => p.length - 1 - i)

/-- The manifest's base path: `baseUrl` starts out as the empty string and
becomes `mainFilePath.substring(0, lastSlash + 1)` when the path contains
a slash. -/
def manifestDirectory (p : List Char) : List Char :=
  match lastSlashIndex p with
  | some i => p.take (i + 1)
  | none => []

/-- `localFileMap.get(path)`: the virtual file set as an association list
in insertion order. -/
def lookupPath (fileMap : List (List Char × List Nat)) (key : List Char) :
    Option (List Nat) :=
  (fileMap.find? (fun e => e.1 == key)).map (fun e => e.2)

/-- `listAvailableFiles(limit = 10)`: the first 10 known paths, used as the
diagnostic sample in resolution errors. -/
def listAvailableFiles (fileMap : List (List Char × List Nat)) : List (List Char) :=
  (fileMap.map (fun e => e.1)).take 10

/-- `gltfJson.accessors[primitive.attributes.X]` with JS `undefined`
propagation: an undeclared attribute or an out-of-range index both yield
`undefined` (`none`), which is what the required-attribute check tests. -/
def accessorAt (g : Gltf) (index : Option Nat) : Option Accessor :=
  index.bind (fun i => g.accessors.get? i)

/-- The resolution phase of `parseGltf` for a virtual-file-set source
(everything up to and including obtaining the raw binary buffer):
mesh check → first mesh/primitive → required-attribute check →
`buffers[0]` → resolve its `uri` against the file set, falling back to a
network fetch when the base path is nonempty.  Returns the trace of
external resource accesses together with the result; `netFetch` is the
environment's answer to a `fetch`. -/
def parseGltfResolve (g : Gltf) (mainFilePath : List Char)
    (fileMap : List (List Char × List Nat)) (netFetch : List Char → Option (List Nat)) :
    List ResolveAction × Except GltfError (List Nat) :=
  let baseUrl := manifestDirectory mainFilePath
  match g.meshes.head? with
  | none => ([], .error .NoMeshes)
  | some mesh =>
    match mesh.primitives.head? with
    | none => ([], .error .JsTypeError)
    | some primitive =>
      if accessorAt g primitive.attributes.POSITION = none ∨
          accessorAt g primitive.attributes.NORMAL = none ∨
          accessorAt g primitive.indices = none then
        ([], .error .MissingRequiredAttributes)
      else
        match g.buffers.head? with
        | none => ([], .error .JsTypeError)
        | some buffer =>
          match buffer.uri with
          | none => ([], .error .EmbeddedBufferUnsupported)
          | some uri =>
            let bufferPath := baseUrl ++ uri
            match lookupPath fileMap bufferPath with
            | some bytes => ([.readLocalFile bufferPath], .ok bytes)
            | none =>
              if baseUrl ≠ [] then
                match netFetch bufferPath with
                | some bytes => ([.fetchUrl bufferPath], .ok bytes)
                | none => ([.fetchUrl bufferPath], .error (.BufferFetchFailed bufferPath))
              else
                ([], .error (.ResourceNotFound uri (listAvailableFiles fileMap)))

/-- How the texture step turns an image `uri` into a loadable URL. -/
inductive ImageResolution where
  | localObjectUrl (path : List Char)
  | remoteUrl (url : List Char)
  deriving DecidableEq

/-- The image-uri resolution of the texture step: a file found in the
virtual set becomes an object URL; otherwise, with a nonempty base path
the remote URL `baseUrl + uri` is used; with an empty base path the load
throws the "Cannot resolve image URI" error. -/
def resolveImageUri (fileMap : List (List Char × List Nat)) (baseUrl uri : List Char) :
    Except GltfError ImageResolution :=
  let imagePath := baseUrl ++ uri
  match lookupPath fileMap imagePath with
  | some _ => .ok (.localObjectUrl imagePath)
  | none =>
    if baseUrl ≠ [] then .ok (.remoteUrl imagePath)
    else .error (.ResourceNotFound uri (listAvailableFiles fileMap))

/-- A position accessor fixture (float32 VEC3). -/
def accVec3F32 : Accessor := ⟨5126, "VEC3", 8, none, 0⟩

/-- An index accessor fixture (uint16 SCALAR). -/
def accScalarU16 : Accessor := ⟨5123, "SCALAR", 36, none, 1⟩

/-- Manifest whose first primitive declares POSITION and indices but no
NORMAL. -/
def gMissingNormal : Gltf :=
  { meshes := [⟨[⟨⟨some 0, none, none⟩, some 1, none⟩]⟩],
    accessors := [accVec3F32, accScalarU16],
    bufferViews := [⟨some 0⟩],
    buffers := [⟨some ("scene.bin".toList)⟩] }

/-- Manifest whose first primitive declares NORMAL and indices but no
POSITION. -/
def gMissingPosition : Gltf :=
  { meshes := [⟨[⟨⟨none, some 0, none⟩, some 1, none⟩]⟩],
    accessors := [accVec3F32, accScalarU16],
    bufferViews := [⟨some 0⟩],
    buffers := [⟨some ("scene.bin".toList)⟩] }

/-- Manifest whose first primitive declares POSITION and NORMAL but no
indices. -/
def gMissingIndices : Gltf :=
  { meshes := [⟨[⟨⟨some 0, some 0, none⟩, none, none⟩]⟩],
    accessors := [accVec3F32, accScalarU16],
    bufferViews := [⟨some 0⟩],
    buffers := [⟨some ("scene.bin".toList)⟩] }

/-- Manifest declaring all three required accessors (and no TEXCOORD_0),
with a single external buffer `scene.bin`. -/
def gComplete : Gltf :=
  { meshes := [⟨[⟨⟨some 0, some 0, none⟩, some 1, none⟩]⟩],
    accessors := [accVec3F32, accScalarU16],
    bufferViews := [⟨some 0⟩],
    buffers := [⟨some ("scene.bin".toList)⟩] }

/-- C6 counterexample: a manifest missing only NORMAL and a manifest
missing only POSITION fail with the *identical* error value (the source
throws one fixed message, "Mesh is missing required attributes (POSITION,
NORMAL, or indices)."), so the failure does not name which of the required
attributes are absent, contrary to the claim. -/
theorem missing_attribute_error_does_not_name_attribute :
    parseGltfResolve gMissingNormal ("scene.gltf".toList)
        [(("scene.gltf".toList), [])] (fun _ => none) =
      ([], .error .MissingRequiredAttributes) ∧
    parseGltfResolve gMissingPosition ("scene.gltf".toList)
        [(("scene.gltf".toList), [])] (fun _ => none) =
      ([], .error .MissingRequiredAttributes) := by
  constructor <;> rfl

/-- C6 (amended): when the first primitive's POSITION, NORMAL or indices
accessor is missing, the load fails with `MissingRequiredAttributes` — a
single fixed diagnostic that does not name which of them are absent — and
the action trace is empty: no file read or network fetch has been issued;
when all three are present the load never fails with
`MissingRequiredAttributes` (in particular a missing TEXCOORD_0 does not
trigger it). -/
theorem missing_required_attributes_check
    (g : Gltf) (mainFilePath : List Char) (fileMap : List (List Char × List Nat))
    (netFetch : List Char → Option (List Nat)) (m : Mesh) (p : Primitive)
    (hm : g.meshes.head? = some m) (hp : m.primitives.head? = some p) :
    ((accessorAt g p.attributes.POSITION = none ∨
      accessorAt g p.attributes.NORMAL = none ∨
      accessorAt g p.indices = none) →
      parseGltfResolve g mainFilePath fileMap netFetch =
        ([], .error .MissingRequiredAttributes)) ∧
    ((accessorAt g p.attributes.POSITION ≠ none ∧
      accessorAt g p.attributes.NORMAL ≠ none ∧
      accessorAt g p.indices ≠ none) →
      (parseGltfResolve g mainFilePath fileMap netFetch).2 ≠
        Except.error GltfError.MissingRequiredAttributes) := by
  constructor
  · intro hmiss
    simp only [parseGltfResolve, hm, hp]
    rw [if_pos hmiss]
  · intro ⟨h1, h2, h3⟩
    simp only [parseGltfResolve, hm, hp]
    rw [if_neg (by simp [h1, h2, h3])]
    repeat' split
    all_goals simp

/-- Witness for `missing_required_attributes_check`: a manifest missing
only its indices accessor fails with the fixed error and an empty trace; a
complete manifest (without TEXCOORD_0) never produces that error. -/
theorem missing_required_attributes_check_witness :
    parseGltfResolve gMissingIndices ("scene.gltf".toList) [] (fun _ => none) =
      ([], .error .MissingRequiredAttributes) ∧
    (parseGltfResolve gComplete ("scene.gltf".toList) [] (fun _ => none)).2 ≠
      Except.error GltfError.MissingRequiredAttributes :=
  ⟨(missing_required_attributes_check gMissingIndices ("scene.gltf".toList) []
      (fun _ => none) _ _ rfl rfl).1 (by decide),
   (missing_required_attributes_check gComplete ("scene.gltf".toList) []
      (fun _ => none) _ _ rfl rfl).2 (by decide)⟩

/-- C4: every external resource access performed while resolving the
declared buffer `uri` targets `manifestDirectory(mainFilePath) ++ uri` —
resolution is relative to the manifest's own directory within the file
set; in particular a manifest at "models/box/scene.gltf" declaring
`uri: "scene.bin"` resolves to "models/box/scene.bin", not "scene.bin". -/
theorem buffer_uri_resolved_relative_to_manifest_directory
    (g : Gltf) (mainFilePath : List Char) (fileMap : List (List Char × List Nat))
    (netFetch : List Char → Option (List Nat)) (buffer : GltfBuffer) (uri : List Char)
    (hbuf : g.buffers.head? = some buffer) (huri : buffer.uri = some uri) :
    (∀ a ∈ (parseGltfResolve g mainFilePath fileMap netFetch).1,
      actionPath a = manifestDirectory mainFilePath ++ uri) ∧
    manifestDirectory ("models/box/scene.gltf".toList) ++ ("scene.bin".toList) =
      ("models/box/scene.bin".toList) ∧
    ("models/box/scene.bin".toList) ≠ ("scene.bin".toList) := by
  refine ⟨?_, by decide, by decide⟩
  intro a ha
  simp only [parseGltfResolve] at ha
  repeat' split at ha
  all_goals simp_all [actionPath]

/-- Witness for `buffer_uri_resolved_relative_to_manifest_directory`: the
complete manifest fixture placed at "models/box/scene.gltf". -/
theorem buffer_uri_resolved_relative_to_manifest_directory_witness :
    (∀ a ∈ (parseGltfResolve gComplete ("models/box/scene.gltf".toList)
        [(("models/box/scene.gltf".toList), []), (("models/box/scene.bin".toList), [7])]
        (fun _ => none)).1,
      actionPath a =
        manifestDirectory ("models/box/scene.gltf".toList) ++ ("scene.bin".toList)) ∧
    manifestDirectory ("models/box/scene.gltf".toList) ++ ("scene.bin".toList) =
      ("models/box/scene.bin".toList) ∧
    ("models/box/scene.bin".toList) ≠ ("scene.bin".toList) :=
  buffer_uri_resolved_relative_to_manifest_directory gComplete
    ("models/box/scene.gltf".toList)
    [(("models/box/scene.gltf".toList), []), (("models/box/scene.bin".toList), [7])]
    (fun _ => none) _ ("scene.bin".toList) rfl rfl

/-- The virtual file set of the C5 scenario: only the manifest itself is
present; the declared "scene.bin" is absent. -/
def boxFileMap : List (List Char × List Nat) := [(("models/box/scene.gltf".toList), [])]

/-- C5 counterexample: with the manifest at "models/box/scene.gltf" (a
nonempty base path) and "scene.bin" absent from the virtual file set, the
load does NOT fail with `ResourceNotFound`: the source falls back to a
network `fetch` of baseUrl + uri, and the failure surfaces as the generic
"Failed to fetch binary buffer" error instead. -/
theorem missing_resource_fetches_instead_of_resourceNotFound :
    parseGltfResolve gComplete ("models/box/scene.gltf".toList) boxFileMap
        (fun _ => none) =
      ([.fetchUrl ("models/box/scene.bin".toList)],
        .error (.BufferFetchFailed ("models/box/scene.bin".toList))) ∧
    ¬ ∃ pth smp,
      (parseGltfResolve gComplete ("models/box/scene.gltf".toList) boxFileMap
          (fun _ => none)).2 =
        Except.error (GltfError.ResourceNotFound pth smp) := by
  have h : parseGltfResolve gComplete ("models/box/scene.gltf".toList) boxFileMap
      (fun _ => none) =
      ([.fetchUrl ("models/box/scene.bin".toList)],
        .error (.BufferFetchFailed ("models/box/scene.bin".toList))) := by rfl
  refine ⟨h, ?_⟩
  rintro ⟨pth, smp, hps⟩
  rw [h] at hps
  simp at hps

/-- C5 (amended): when a declared uri (buffer or image) is absent from the
virtual file set, the behaviour depends on the manifest's base path: with
an empty base path the load fails with `ResourceNotFound` carrying the
attempted path and a sample of at most 10 known paths and issues no
network or file access; with a nonempty base path the loader instead
attempts a network fetch of basePath + uri (an image uri likewise falls
back to the remote URL), and a failing buffer fetch surfaces as
`BufferFetchFailed`, not `ResourceNotFound`. -/
theorem resource_resolution_fallback
    (g : Gltf) (mainFilePath uri : List Char) (fileMap : List (List Char × List Nat))
    (netFetch : List Char → Option (List Nat)) (m : Mesh) (p : Primitive)
    (buffer : GltfBuffer)
    (hm : g.meshes.head? = some m) (hp : m.primitives.head? = some p)
    (hpos : accessorAt g p.attributes.POSITION ≠ none)
    (hnorm : accessorAt g p.attributes.NORMAL ≠ none)
    (hidx : accessorAt g p.indices ≠ none)
    (hbuf : g.buffers.head? = some buffer) (huri : buffer.uri = some uri)
    (hmiss : lookupPath fileMap (manifestDirectory mainFilePath ++ uri) = none) :
    (manifestDirectory mainFilePath = [] →
      parseGltfResolve g mainFilePath fileMap netFetch =
        ([], .error (.ResourceNotFound uri (listAvailableFiles fileMap)))) ∧
    (manifestDirectory mainFilePath ≠ [] →
      netFetch (manifestDirectory mainFilePath ++ uri) = none →
      parseGltfResolve g mainFilePath fileMap netFetch =
        ([.fetchUrl (manifestDirectory mainFilePath ++ uri)],
          .error (.BufferFetchFailed (manifestDirectory mainFilePath ++ uri)))) ∧
    (∀ baseUrl imgUri, lookupPath fileMap (baseUrl ++ imgUri) = none →
      (baseUrl = [] →
        resolveImageUri fileMap baseUrl imgUri =
          .error (.ResourceNotFound imgUri (listAvailableFiles fileMap))) ∧
      (baseUrl ≠ [] →
        resolveImageUri fileMap baseUrl imgUri = .ok (.remoteUrl (baseUrl ++ imgUri)))) ∧
    (listAvailableFiles fileMap).length ≤ 10 := by
  have hcheck : ¬ (accessorAt g p.attributes.POSITION = none ∨
      accessorAt g p.attributes.NORMAL = none ∨
      accessorAt g p.indices = none) := by simp [hpos, hnorm, hidx]
  refine ⟨?_, ?_, ?_, ?_⟩
  · intro hdir
    simp only [parseGltfResolve, hm, hp]
    rw [if_neg hcheck]
    simp only [hbuf, huri]
    rw [hdir] at hmiss
    simp only [List.nil_append] at hmiss
    simp [hdir, hmiss]
  · intro hdir hnf
    simp only [parseGltfResolve, hm, hp]
    rw [if_neg hcheck]
    simp only [hbuf, huri, hmiss]
    rw [if_pos hdir]
    simp [hnf]
  · intro baseUrl imgUri hm2
    constructor
    · intro hdir
      rw [hdir] at hm2
      simp only [List.nil_append] at hm2
      simp [resolveImageUri, hdir, hm2]
    · intro hdir
      simp [resolveImageUri, hm2, hdir]
  · simp only [listAvailableFiles, List.length_take]
    omega

/-- Witness for `resource_resolution_fallback`: the complete manifest
fixture placed at the root of the file set, with "scene.bin" absent. -/
theorem resource_resolution_fallback_witness :
    parseGltfResolve gComplete ("scene.gltf".toList)
        [(("scene.gltf".toList), [])] (fun _ => none) =
      ([], .error (.ResourceNotFound ("scene.bin".toList)
        (listAvailableFiles [(("scene.gltf".toList), [])]))) ∧
    resolveImageUri [(("scene.gltf".toList), [])] [] ("tex.png".toList) =
      .error (.ResourceNotFound ("tex.png".toList)
        (listAvailableFiles [(("scene.gltf".toList), [])])) :=
  ⟨(resource_resolution_fallback gComplete ("scene.gltf".toList) ("scene.bin".toList)
      [(("scene.gltf".toList), [])] (fun _ => none) _ _ _ rfl rfl
      (by decide) (by decide) (by decide) rfl rfl (by decide)).1 (by decide),
   ((resource_resolution_fallback gComplete ("scene.gltf".toList) ("scene.bin".toList)
      [(("scene.gltf".toList), [])] (fun _ => none) _ _ _ rfl rfl
      (by decide) (by decide) (by decide) rfl rfl (by decide)).2.2.1 []
      ("tex.png".toList) (by decide)).1 rfl⟩

/-- Character-code lexicographic comparison; models the
`(a, b) => a.localeCompare(b)` comparator of the folder import, which for
the ASCII paths at issue orders by character code. -/
def lexLe : List Char → List Char → Bool
  | [], _ => true
  | _ :: _, [] => false
  | a :: as, b :: bs =>
    if a.toNat < b.toNat then true
    else if b.toNat < a.toNat then false
    else lexLe as bs

/-- `p.toLowerCase().endsWith('.gltf')`. -/
def isGltfPath (p : List Char) : Bool :=
  (".gltf".toList).isSuffixOf (p.map Char.toLower)

/-- The `.gltf` candidates among the directory keys. -/
def gltfPathsOf (dirKeys : List (List Char)) : List (List Char) :=
  dirKeys.filter isGltfPath

/-- The hint predicate of the folder import:
`p.endsWith('/' + preferredGltfName) || p === preferredGltfName`. -/
def hintMatches (name p : List Char) : Bool :=
  ('/' :: name).isSuffixOf p || p == name

/-- Stable insertion step of the sort. -/
def insertSorted (le : List Char → List Char → Bool) (x : List Char) :
    List (List Char) → List (List Char)
  | [] => [x]
  | y :: ys => if le x y then x :: y :: ys else y :: insertSorted le x ys

/-- Stable insertion sort; models `gltfPaths.sort(comparator)` (the JS
sort contract: a stable sort by the comparator; the algorithm itself is
unspecified). -/
def sortPaths (le : List Char → List Char → Bool) : List (List Char) → List (List Char)
  | [] => []
  | x :: xs => insertSorted le x (sortPaths le xs)

/-- `processFolderHandle`'s deterministic manifest selection: filter the
keys to lower-cased `.gltf` suffixes; if a hint is supplied take the first
path ending in `/hint` or equal to the hint; failing that, if there is
EXACTLY ONE root-level candidate take it; failing that sort all candidates
with the comparator and take the first. -/
def processFolderSelect (preferredGltfName : Option (List Char))
    (dirKeys : List (List Char)) : Except GltfError (List Char) :=
  let gltfPaths := gltfPathsOf dirKeys
  if gltfPaths.isEmpty then .error .NoGltfInFolder
  else
    let hintSelected : Option (List Char) :=
      match preferredGltfName with
      | some name => gltfPaths.find? (hintMatches name)
      | none => none
    let rootSelected : Option (List Char) :=
      match hintSelected with
      | some sel => some sel
      | none =>
        let rootCandidates := gltfPaths.filter (fun p => ! p.contains '/')
        if rootCandidates.length = 1 then rootCandidates.head? else none
    match rootSelected with
    | some sel => .ok sel
    | none => .ok ((sortPaths lexLe gltfPaths).headD [])

theorem lexLe_refl (a : List Char) : lexLe a a = true := by
  induction a with
  | nil => rfl
  | cons x xs ih => simp [lexLe, ih]

theorem lexLe_total (a : List Char) : ∀ b, lexLe a b = true ∨ lexLe b a = true := by
  induction a with
  | nil => intro b; left; rfl
  | cons x xs ih =>
    intro b
    cases b with
    | nil => right; rfl
    | cons y ys =>
      simp only [lexLe]
      rcases Nat.lt_trichotomy x.toNat y.toNat with h | h | h
      · left; simp [h]
      · rcases ih ys with h2 | h2
        · left; simp [h, h2]
        · right; simp [h, h2]
      · right; simp [h]

theorem lexLe_trans (a : List Char) :
    ∀ b c, lexLe a b = true → lexLe b c = true → lexLe a c = true := by
  induction a with
  | nil => intro b c hab hbc; rfl
  | cons x xs ih =>
    intro b c hab hbc
    cases b with
    | nil => simp [lexLe] at hab
    | cons y ys =>
      cases c with
      | nil => simp [lexLe] at hbc
      | cons z zs =>
        simp only [lexLe] at hab hbc ⊢
        split_ifs at hab hbc ⊢ <;>
          first
            | rfl
            | omega
            | exact ih ys zs hab hbc

theorem mem_insertSorted (le : List Char → List Char → Bool) (x a : List Char) :
    ∀ l, (a ∈ insertSorted le x l ↔ a = x ∨ a ∈ l) := by
  intro l
  induction l with
  | nil => simp [insertSorted]
  | cons y ys ih =>
    simp only [insertSorted]
    split
    · simp [List.mem_cons]
    · simp only [List.mem_cons, ih]
      tauto

theorem mem_sortPaths (le : List Char → List Char → Bool) (a : List Char) :
    ∀ l, a ∈ sortPaths le l ↔ a ∈ l := by
  intro l
  induction l with
  | nil => simp [sortPaths]
  | cons x xs ih => simp [sortPaths, mem_insertSorted, ih]

theorem sortPaths_ne_nil (le : List Char → List Char → Bool) (l : List (List Char))
    (h : l ≠ []) : sortPaths le l ≠ [] := by
  cases l with
  | nil => exact absurd rfl h
  | cons x xs =>
    intro hcontra
    have hx : x ∈ sortPaths le (x :: xs) :=
      (mem_sortPaths le x (x :: xs)).mpr (List.mem_cons_self x xs)
    rw [hcontra] at hx
    cases hx

theorem pairwise_insertSorted (le : List Char → List Char → Bool)
    (htotal : ∀ a b, le a b = true ∨ le b a = true)
    (htrans : ∀ a b c, le a b = true → le b c = true → le a c = true)
    (x : List Char) :
    ∀ l, l.Pairwise (fun a b => le a b = true) →
      (insertSorted le x l).Pairwise (fun a b => le a b = true) := by
  intro l
  induction l with
  | nil => intro _; simp [insertSorted]
  | cons y ys ih =>
    intro hl
    rw [List.pairwise_cons] at hl
    obtain ⟨hy, hys⟩ := hl
    simp only [insertSorted]
    split
    · rename_i hxy
      rw [List.pairwise_cons]
      refine ⟨?_, List.pairwise_cons.mpr ⟨hy, hys⟩⟩
      intro z hz
      rcases List.mem_cons.mp hz with rfl | hz2
      · exact hxy
      · exact htrans x y z hxy (hy z hz2)
    · rename_i hxy
      have hyx : le y x = true := by
        rcases htotal x y with h | h
        · exact absurd h hxy
        · exact h
      rw [List.pairwise_cons]
      refine ⟨?_, ih hys⟩
      intro z hz
      rcases (mem_insertSorted le x z ys).mp hz with rfl | hz2
      · exact hyx
      · exact hy z hz2

theorem pairwise_sortPaths (le : List Char → List Char → Bool)
    (htotal : ∀ a b, le a b = true ∨ le b a = true)
    (htrans : ∀ a b c, le a b = true → le b c = true → le a c = true) :
    ∀ l, (sortPaths le l).Pairwise (fun a b => le a b = true) := by
  intro l
  induction l with
  | nil => simp [sortPaths]
  | cons x xs ih => exact pairwise_insertSorted le htotal htrans x _ ih

theorem sortPaths_head_min (le : List Char → List Char → Bool)
    (htotal : ∀ a b, le a b = true ∨ le b a = true)
    (htrans : ∀ a b c, le a b = true → le b c = true → le a c = true)
    (l : List (List Char)) (x : List Char) (hx : x ∈ l)
    (m : List Char) (rest : List (List Char)) (hEq : sortPaths le l = m :: rest) :
    le m x = true := by
  have hpw := pairwise_sortPaths le htotal htrans l
  rw [hEq] at hpw
  have hxmem : x ∈ sortPaths le l := (mem_sortPaths le x l).mpr hx
  rw [hEq] at hxmem
  rcases List.mem_cons.mp hxmem with rfl | hx2
  · rcases htotal x x with h | h <;> exact h
  · exact (List.pairwise_cons.mp hpw).1 x hx2

/-- C8 counterexample: with no hint and candidates
{"a/x.gltf", "b.gltf", "c.gltf"} the set contains root-level manifests,
yet the selection returns the nested "a/x.gltf": when the number of
root-level candidates differs from one, the source skips the root
preference entirely and lexicographically sorts ALL candidates, so a
nested path can win over a root manifest, contrary to the claimed rule
"else prefer a manifest at the root of the set". -/
theorem folder_selection_sorts_instead_of_preferring_root :
    processFolderSelect none
        [("a/x.gltf".toList), ("b.gltf".toList), ("c.gltf".toList)] =
      .ok ("a/x.gltf".toList) ∧
    ("b.gltf".toList) ∈ gltfPathsOf
        [("a/x.gltf".toList), ("b.gltf".toList), ("c.gltf".toList)] ∧
    ("b.gltf".toList).contains '/' = false ∧
    ("a/x.gltf".toList).contains '/' = true := by
  refine ⟨rfl, by decide, by decide, by decide⟩

/-- C8 (amended): the folder-import manifest selection is the pure
function of the hint and the key list given by: the selected path is
always a `.gltf` candidate from the set; if a hint is supplied and some
candidate equals it or ends in "/" + hint, the first such candidate is
selected; otherwise, if there is exactly one root-level candidate it is
selected; otherwise the lexicographically smallest of ALL candidates
(root-level or not) is selected. -/
theorem folder_selection_rule (preferredGltfName : Option (List Char))
    (dirKeys : List (List Char)) (hne : gltfPathsOf dirKeys ≠ []) :
    (∀ sel, processFolderSelect preferredGltfName dirKeys = .ok sel →
      sel ∈ gltfPathsOf dirKeys) ∧
    (∀ name found, preferredGltfName = some name →
      (gltfPathsOf dirKeys).find? (hintMatches name) = some found →
      processFolderSelect preferredGltfName dirKeys = .ok found) ∧
    ((match preferredGltfName with
      | some name => (gltfPathsOf dirKeys).find? (hintMatches name) = none
      | none => True) →
      ((((gltfPathsOf dirKeys).filter (fun p => ! p.contains '/')).length = 1 →
        ∀ r, ((gltfPathsOf dirKeys).filter (fun p => ! p.contains '/')).head? = some r →
          processFolderSelect preferredGltfName dirKeys = .ok r) ∧
       (((gltfPathsOf dirKeys).filter (fun p => ! p.contains '/')).length ≠ 1 →
        ∃ sel, processFolderSelect preferredGltfName dirKeys = .ok sel ∧
          sel ∈ gltfPathsOf dirKeys ∧
          ∀ q ∈ gltfPathsOf dirKeys, lexLe sel q = true))) := by
  have hemp : (gltfPathsOf dirKeys).isEmpty = false := by
    cases h : (gltfPathsOf dirKeys).isEmpty
    · rfl
    · exact absurd (List.isEmpty_iff.mp h) hne
  obtain ⟨m, rest, hsort⟩ :
      ∃ m rest, sortPaths lexLe (gltfPathsOf dirKeys) = m :: rest := by
    cases h : sortPaths lexLe (gltfPathsOf dirKeys) with
    | nil => exact absurd h (sortPaths_ne_nil lexLe _ hne)
    | cons m rest => exact ⟨m, rest, rfl⟩
  refine ⟨?_, ?_, ?_⟩
  · intro sel hsel
    rcases hpref : preferredGltfName with _ | name
    · simp only [processFolderSelect, hemp, Bool.false_eq_true, if_false, hpref] at hsel
      by_cases hl1 : ((gltfPathsOf dirKeys).filter (fun p => ! p.contains '/')).length = 1
      · rw [if_pos hl1] at hsel
        cases hhead : ((gltfPathsOf dirKeys).filter (fun p => ! p.contains '/')).head? with
        | none =>
          rw [hhead, hsort] at hsel
          cases hsel
          exact (mem_sortPaths lexLe _ _).mp (by rw [hsort]; exact List.mem_cons_self m rest)
        | some r =>
          rw [hhead] at hsel
          cases hsel
          have hr : sel ∈ (gltfPathsOf dirKeys).filter (fun p => ! p.contains '/') :=
            List.mem_of_mem_head? hhead
          exact List.mem_of_mem_filter hr
      · rw [if_neg hl1, hsort] at hsel
        cases hsel
        exact (mem_sortPaths lexLe _ _).mp (by rw [hsort]; exact List.mem_cons_self m rest)
    · rcases hfind : (gltfPathsOf dirKeys).find? (hintMatches name) with _ | found
      · simp only [processFolderSelect, hemp, Bool.false_eq_true, if_false, hpref, hfind] at hsel
        by_cases hl1 : ((gltfPathsOf dirKeys).filter (fun p => ! p.contains '/')).length = 1
        · rw [if_pos hl1] at hsel
          cases hhead : ((gltfPathsOf dirKeys).filter (fun p => ! p.contains '/')).head? with
          | none =>
            rw [hhead, hsort] at hsel
            cases hsel
            exact (mem_sortPaths lexLe _ _).mp (by rw [hsort]; exact List.mem_cons_self m rest)
          | some r =>
            rw [hhead] at hsel
            cases hsel
            have hr : sel ∈ (gltfPathsOf dirKeys).filter (fun p => ! p.contains '/') :=
              List.mem_of_mem_head? hhead
            exact List.mem_of_mem_filter hr
        · rw [if_neg hl1, hsort] at hsel
          cases hsel
          exact (mem_sortPaths lexLe _ _).mp (by rw [hsort]; exact List.mem_cons_self m rest)
      · simp only [processFolderSelect, hemp, Bool.false_eq_true, if_false, hpref, hfind] at hsel
        cases hsel
        exact List.mem_of_find?_eq_some hfind
  · intro name found hpref hfind
    simp only [processFolderSelect, hemp, Bool.false_eq_true, if_false, hpref, hfind]
  · intro hhint
    constructor
    · intro hlen r hhead
      rcases hpref : preferredGltfName with _ | name
      · simp only [processFolderSelect, hemp, Bool.false_eq_true, if_false, hpref,
          if_pos hlen, hhead]
      · rw [hpref] at hhint
        simp only [processFolderSelect, hemp, Bool.false_eq_true, if_false, hpref, hhint,
          if_pos hlen, hhead]
    · intro hlen
      refine ⟨m, ?_, ?_, ?_⟩
      · rcases hpref : preferredGltfName with _ | name
        · simp only [processFolderSelect, hemp, Bool.false_eq_true, if_false, hpref,
            if_neg hlen, hsort]
          rfl
        · rw [hpref] at hhint
          simp only [processFolderSelect, hemp, Bool.false_eq_true, if_false, hpref, hhint,
            if_neg hlen, hsort]
          rfl
      · exact (mem_sortPaths lexLe _ _).mp (by rw [hsort]; exact List.mem_cons_self m rest)
      · intro q hq
        exact sortPaths_head_min lexLe (fun a b => lexLe_total a b)
          (fun a b c => lexLe_trans a b c) _ q hq m rest hsort

/-- Witness for `folder_selection_rule`: a set with one root and one nested
candidate, no hint — the unique root manifest is selected. -/
theorem folder_selection_rule_witness :
    gltfPathsOf [("x.gltf".toList), ("sub/y.gltf".toList)] ≠ [] ∧
    processFolderSelect none [("x.gltf".toList), ("sub/y.gltf".toList)] =
      .ok ("x.gltf".toList) := by
  refine ⟨by decide, ?_⟩
  have h := (folder_selection_rule none [("x.gltf".toList), ("sub/y.gltf".toList)]
      (by decide)).2.2 trivial
  exact h.1 (by decide) ("x.gltf".toList) (by decide)

/-- The named buffer set of a generated drawable.  Buffer handles are
modelled by the typed-array contents uploaded into them (`Float32Array`
data as exact rationals, `Uint16Array` index data as naturals). -/
structure GeometryBuffers where
  position : List ℚ
  normal : List ℚ
  texCoord : Option (List ℚ)
  indices : List Nat
  deriving DecidableEq

/-- A drawable produced by the geometry generators (`geometry.js`).
`texture` carries the loaded texture's source URL when present;
`indexType` is the WebGL index-type constant. -/
structure DrawableGeom where
  buffers : GeometryBuffers
  texture : Option (List Char)
  vertexCount : Nat
  indexType : Nat
  debugName : List Char
  deriving DecidableEq

/-- `initCubeBuffers(gl)`: the literal position / texture-coordinate /
normal / index arrays of the unit cube. -/
def initCubeBuffers : GeometryBuffers :=
  { position :=
      [-1, -1, 1, 1, -1, 1, 1, 1, 1, -1, 1, 1,
       -1, -1, -1, -1, 1, -1, 1, 1, -1, 1, -1, -1,
       -1, 1, -1, -1, 1, 1, 1, 1, 1, 1, 1, -1,
       -1, -1, -1, 1, -1, -1, 1, -1, 1, -1, -1, 1,
       1, -1, -1, 1, 1, -1, 1, 1, 1, 1, -1, 1,
       -1, -1, -1, -1, -1, 1, -1, 1, 1, -1, 1, -1],
    normal :=
      [0, 0, 1, 0, 0, 1, 0, 0, 1, 0, 0, 1,
       0, 0, -1, 0, 0, -1, 0, 0, -1, 0, 0, -1,
       0, 1, 0, 0, 1, 0, 0, 1, 0, 0, 1, 0,
       0, -1, 0, 0, -1, 0, 0, -1, 0, 0, -1, 0,
       1, 0, 0, 1, 0, 0, 1, 0, 0, 1, 0, 0,
       -1, 0, 0, -1, 0, 0, -1, 0, 0, -1, 0, 0],
    texCoord := some
      [0, 0, 1, 0, 1, 1, 0, 1,
       0, 0, 1, 0, 1, 1, 0, 1,
       0, 0, 1, 0, 1, 1, 0, 1,
       0, 0, 1, 0, 1, 1, 0, 1,
       0, 0, 1, 0, 1, 1, 0, 1,
       0, 0, 1, 0, 1, 1, 0, 1],
    indices :=
      [0, 1, 2, 0, 2, 3,
       4, 5, 6, 4, 6, 7,
       8, 9, 10, 8, 10, 11,
       12, 13, 14, 12, 14, 15,
       16, 17, 18, 16, 18, 19,
       20, 21, 22, 20, 22, 23] }

/-- `createDefaultCube(gl)`: the untextured cube drawable
(`texture: null`, 36 indices, `UNSIGNED_SHORT`). -/
def createDefaultCube : DrawableGeom :=
  { buffers := initCubeBuffers,
    texture := none,
    vertexCount := 36,
    indexType := 5123,
    debugName := "cube".toList }

/-- `createDefaultTexturedCube(gl)`: the body builds the texture URL and
awaits `loadTexture`; the whole body sits in a `try` whose `catch` returns
`createDefaultCube(gl)`.  The only fallible operation inside the `try` is
the texture load, modelled by the `textureResult` argument (the loaded
texture on success, the error message on failure). -/
def createDefaultTexturedCube (textureResult : Except (List Char) (List Char)) :
    DrawableGeom :=
  match textureResult with
  | .ok texture =>
    { buffers := initCubeBuffers,
      texture := some texture,
      vertexCount := 36,
      indexType := 5123,
      debugName := "textured cube".toList }
  | .error _ => createDefaultCube

/-- `createSphere(gl, radius = 1, latitudeBands = 30, longitudeBands = 30)`:
the UV-sphere generator.  Real arithmetic is modelled over ℚ, with π as
the parameter `qpi` and sine/cosine as the function parameters
`sinf`/`cosf`; the source's single vertex loop pushes into three arrays,
modelled as three flatMaps over the same index ranges in the same order.
Poles are deliberately duplicated (no deduplication), as in the source. -/
def createSphere (qpi : ℚ) (sinf cosf : ℚ → ℚ) (radius : ℚ)
    (latitudeBands longitudeBands : Nat) : DrawableGeom :=
  let vertexPositionData := (List.range (latitudeBands + 1)).flatMap (fun latNumber =>
    (List.range (longitudeBands + 1)).flatMap (fun longNumber =>
      let theta := (latNumber : ℚ) * qpi / (latitudeBands : ℚ)
      let sinTheta := sinf theta
      let cosTheta := cosf theta
      let phi := (longNumber : ℚ) * 2 * qpi / (longitudeBands : ℚ)
      let x := cosf phi * sinTheta
      let y := cosTheta
      let z := sinf phi * sinTheta
      [radius * x, radius * y, radius * z]))
  let normalData := (List.range (latitudeBands + 1)).flatMap (fun latNumber =>
    (List.range (longitudeBands + 1)).flatMap (fun longNumber =>
      let theta := (latNumber : ℚ) * qpi / (latitudeBands : ℚ)
      let sinTheta := sinf theta
      let cosTheta := cosf theta
      let phi := (longNumber : ℚ) * 2 * qpi / (longitudeBands : ℚ)
      let x := cosf phi * sinTheta
      let y := cosTheta
      let z := sinf phi * sinTheta
      [x, y, z]))
  let textureCoordData := (List.range (latitudeBands + 1)).flatMap (fun latNumber =>
    (List.range (longitudeBands + 1)).flatMap (fun longNumber =>
      let u := 1 - (longNumber : ℚ) / (longitudeBands : ℚ)
      let v := 1 - (latNumber : ℚ) / (latitudeBands : ℚ)
      [u, v]))
  let indexData := (List.range latitudeBands).flatMap (fun latNumber =>
    (List.range longitudeBands).flatMap (fun longNumber =>
      let first := latNumber * (longitudeBands + 1) + longNumber
      let second := first + longitudeBands + 1
      [first, second, first + 1, second, second + 1, first + 1]))
  { buffers :=
      { position := vertexPositionData,
        normal := normalData,
        texCoord := some textureCoordData,
        indices := indexData },
    texture := none,
    vertexCount := indexData.length,
    indexType := 5123,
    debugName := "sphere".toList }

/-- `createTexturedSphere(gl)`: awaits the texture load, reuses
`createSphere(gl)` with its defaults and attaches the texture; the `catch`
falls back to the untextured `createSphere(gl)`. -/
def createTexturedSphere (qpi : ℚ) (sinf cosf : ℚ → ℚ)
    (textureResult : Except (List Char) (List Char)) : DrawableGeom :=
  match textureResult with
  | .ok texture =>
    let sphereGeometry := createSphere qpi sinf cosf 1 30 30
    { sphereGeometry with
        texture := some texture,
        debugName := "textured sphere".toList }
  | .error _ => createSphere qpi sinf cosf 1 30 30

/-- C9: whenever texture loading fails, the textured-cube and
textured-sphere generators return exactly the corresponding untextured
drawable (geometry still produced, no texture) instead of propagating the
texture error. -/
theorem textured_generators_fall_back_untextured (e : List Char) (qpi : ℚ)
    (sinf cosf : ℚ → ℚ) :
    createDefaultTexturedCube (.error e) = createDefaultCube ∧
    (createDefaultTexturedCube (.error e)).texture = none ∧
    createTexturedSphere qpi sinf cosf (.error e) = createSphere qpi sinf cosf 1 30 30 ∧
    (createTexturedSphere qpi sinf cosf (.error e)).texture = none :=
  ⟨rfl, rfl, rfl, rfl⟩

theorem length_flatMap_const {α β : Type} (l : List α) (f : α → List β) (k : Nat)
    (h : ∀ a ∈ l, (f a).length = k) : (l.flatMap f).length = l.length * k := by
  induction l with
  | nil => simp
  | cons x xs ih =>
    simp only [List.flatMap_cons, List.length_append, List.length_cons]
    rw [h x (List.mem_cons_self x xs), ih (fun a ha => h a (List.mem_cons_of_mem x ha))]
    ring

/-- C10: for latitudeBands ≥ 1 and longitudeBands ≥ 1 (any radius, any
trig model), `createSphere` yields `vertexCount = 6·L·M`, position and
normal arrays of length `3·(L+1)·(M+1)`, a texture-coordinate array of
length `2·(L+1)·(M+1)`, and every index strictly below `(L+1)·(M+1)` — so
for the default 30×30 tessellation `vertexCount = 5400` and every index is
at most 960, fitting a uint16 index array without wrap. -/
theorem createSphere_counts (qpi : ℚ) (sinf cosf : ℚ → ℚ) (radius : ℚ)
    (latitudeBands longitudeBands : Nat)
    (hL : 1 ≤ latitudeBands) (hM : 1 ≤ longitudeBands) :
    (createSphere qpi sinf cosf radius latitudeBands longitudeBands).vertexCount =
      6 * latitudeBands * longitudeBands ∧
    (createSphere qpi sinf cosf radius latitudeBands longitudeBands).buffers.position.length =
      3 * ((latitudeBands + 1) * (longitudeBands + 1)) ∧
    (createSphere qpi sinf cosf radius latitudeBands longitudeBands).buffers.normal.length =
      3 * ((latitudeBands + 1) * (longitudeBands + 1)) ∧
    (∃ tc, (createSphere qpi sinf cosf radius latitudeBands longitudeBands).buffers.texCoord =
        some tc ∧ tc.length = 2 * ((latitudeBands + 1) * (longitudeBands + 1))) ∧
    (∀ i ∈ (createSphere qpi sinf cosf radius latitudeBands longitudeBands).buffers.indices,
      i < (latitudeBands + 1) * (longitudeBands + 1)) := by
  refine ⟨?_, ?_, ?_, ?_, ?_⟩
  · simp only [createSphere]
    rw [length_flatMap_const _ _ (longitudeBands * 6) ?hvc]
    · rw [List.length_range]
      ring
    case hvc =>
      intro a _
      rw [length_flatMap_const _ _ 6 ?hvcInner]
      · rw [List.length_range]
      case hvcInner =>
        intro b _
        rfl
  · simp only [createSphere]
    rw [length_flatMap_const _ _ ((longitudeBands + 1) * 3) ?hpos]
    · rw [List.length_range]
      ring
    case hpos =>
      intro a _
      rw [length_flatMap_const _ _ 3 ?hposInner]
      · rw [List.length_range]
      case hposInner =>
        intro b _
        rfl
  · simp only [createSphere]
    rw [length_flatMap_const _ _ ((longitudeBands + 1) * 3) ?hnorm]
    · rw [List.length_range]
      ring
    case hnorm =>
      intro a _
      rw [length_flatMap_const _ _ 3 ?hnormInner]
      · rw [List.length_range]
      case hnormInner =>
        intro b _
        rfl
  · simp only [createSphere]
    refine ⟨_, rfl, ?_⟩
    rw [length_flatMap_const _ _ ((longitudeBands + 1) * 2) ?htc]
    · rw [List.length_range]
      ring
    case htc =>
      intro a _
      rw [length_flatMap_const _ _ 2 ?htcInner]
      · rw [List.length_range]
      case htcInner =>
        intro b _
        rfl
  · intro i hi
    simp only [createSphere, List.mem_flatMap, List.mem_range] at hi
    obtain ⟨lat, hlat, lon, hlon, hi⟩ := hi
    have hb : lat * (longitudeBands + 1) + lon + longitudeBands + 3 ≤
        (latitudeBands + 1) * (longitudeBands + 1) := by
      have h1 : lat + 1 ≤ latitudeBands := hlat
      nlinarith
    simp only [List.mem_cons, List.not_mem_nil, or_false] at hi
    rcases hi with rfl | rfl | rfl | rfl | rfl | rfl <;> linarith

/-- Witness for `createSphere_counts`: the default 30×30 tessellation. -/
theorem createSphere_counts_witness :
    (1 ≤ 30) ∧
    (createSphere 0 id id 1 30 30).vertexCount = 5400 ∧
    (∀ i ∈ (createSphere 0 id id 1 30 30).buffers.indices, i < 65536) := by
  have h := createSphere_counts 0 id id 1 30 30 (by decide) (by decide)
  refine ⟨by decide, ?_, ?_⟩
  · rw [h.1]
  · intro i hi
    have := h.2.2.2.2 i hi
    omega
